import Mathlib

/-!
Verification of the ses-mail routing decision engine and the
credential-expiration-aware retry protocol, as a shallow embedding.

Python strings are modelled as lists of characters (`Str`), so that the
source's `split`, `in`, slicing and concatenation operations become
structurally recursive list functions. Dictionaries read from DynamoDB
are modelled as structures of optional fields; the external collaborators
(DynamoDB rule store, S3 tagging call, SQS enqueue) are modelled as
explicit parameters holding their observable outcome, so every function is
pure and executable.

Embedded sources:
- terraform/modules/ses-mail/lambda/router_enrichment.py
  (check_spam, decide_action, get_routing_decision, generate_lookup_keys,
   normalize_email_address, lookup_routing_rule, extract_s3_info,
   tag_s3_object)
- terraform/modules/ses-mail/lambda/gmail_forwarder.py
  (is_token_expired_error, queue_for_retry, process_sqs_record error path)
-/

/-- Python strings modelled as lists of characters. -/
abbrev Str := List Char

/-- Python `s.lower()` (ASCII-adequate model, matching the characters the
code actually compares). -/
def pyLower (s : Str) : Str := s.map Char.toLower

/-- Split a string at the first occurrence of `c`: Python `s.split(c, 1)`
when `c` occurs, `none` when `c not in s`. -/
def splitFirst (c : Char) : Str → Option (Str × Str)
  | [] => none
  | x :: xs =>
    if x = c then some ([], xs)
    else
      match splitFirst c xs with
      | none => none
      | some p => some (x :: p.1, p.2)

/-- Characters of `s` strictly before the first occurrence of `c`:
Python `s.split(c)[0]` (the whole string when `c not in s`). -/
def takeBefore (c : Char) : Str → Str
  | [] => []
  | x :: xs => if x = c then [] else x :: takeBefore c xs

/-- Python `hay.startswith(needle)` on the model. -/
def strStarts : Str → Str → Bool
  | _, [] => true
  | [], _ :: _ => false
  | a :: as, b :: bs => a = b && strStarts as bs

/-- Python `needle in hay` (substring containment) on the model. -/
def hasSub (needle : Str) : Str → Bool
  | [] => strStarts [] needle
  | h :: t => strStarts (h :: t) needle || hasSub needle t

/-- Embedding of `normalize_email_address`
(router_enrichment.py:559-580): return unchanged when there is no `@`;
otherwise split on the first `@`, drop everything from the first `+` of
the local part, and rejoin with the unmodified domain. -/
def normalize_email_address (s : Str) : Str :=
  match splitFirst '@' s with
  | none => s
  | some p => takeBefore '+' p.1 ++ '@' :: p.2

/-! Helper lemmas about `splitFirst` and `takeBefore`. -/

theorem splitFirst_eq_none_iff (c : Char) (s : Str) :
    splitFirst c s = none ↔ c ∉ s := by
  induction s with
  | nil => simp [splitFirst]
  | cons x xs ih =>
    by_cases hx : x = c
    · subst hx
      simp [splitFirst]
    · have hne : ¬ c = x := fun h => hx h.symm
      simp only [splitFirst, if_neg hx, List.mem_cons]
      cases h : splitFirst c xs with
      | none =>
        rw [h] at ih
        have hxs : c ∉ xs := ih.mp rfl
        simp [hne, hxs]
      | some p =>
        rw [h] at ih
        have hxs : c ∈ xs := by
          by_contra hno
          exact Option.noConfusion (ih.mpr hno)
        simp [hxs]

theorem splitFirst_append (c : Char) (l d : Str) (hl : c ∉ l) :
    splitFirst c (l ++ c :: d) = some (l, d) := by
  induction l with
  | nil => simp [splitFirst]
  | cons x xs ih =>
    have hx : x ≠ c := fun h => hl (by simp [h])
    have hxs : c ∉ xs := fun h => hl (List.mem_cons_of_mem _ h)
    simp only [List.cons_append, splitFirst, List.append_eq, if_neg hx, ih hxs]

theorem splitFirst_eq_some (c : Char) (s l d : Str)
    (h : splitFirst c s = some (l, d)) : s = l ++ c :: d ∧ c ∉ l := by
  induction s generalizing l d with
  | nil => simp [splitFirst] at h
  | cons x xs ih =>
    by_cases hx : x = c
    · subst hx
      simp [splitFirst] at h
      obtain ⟨h1, h2⟩ := h
      subst h1; subst h2
      simp
    · simp only [splitFirst, if_neg hx] at h
      cases hs : splitFirst c xs with
      | none => simp [hs] at h
      | some p =>
        simp only [hs] at h
        obtain ⟨l', d'⟩ := p
        simp only [Option.some.injEq, Prod.mk.injEq] at h
        obtain ⟨h1, h2⟩ := h
        obtain ⟨hrec1, hrec2⟩ := ih l' d' hs
        subst h1; subst h2
        constructor
        · simp [hrec1]
        · intro hmem
          rcases List.mem_cons.mp hmem with h' | h'
          · exact hx h'.symm
          · exact hrec2 h'

theorem takeBefore_idem (c : Char) (s : Str) :
    takeBefore c (takeBefore c s) = takeBefore c s := by
  induction s with
  | nil => rfl
  | cons x xs ih =>
    by_cases hx : x = c
    · simp [takeBefore, hx]
    · simp [takeBefore, hx, ih]

theorem mem_takeBefore (c x : Char) (s : Str) (h : x ∈ takeBefore c s) :
    x ∈ s := by
  induction s with
  | nil => simp [takeBefore] at h
  | cons y ys ih =>
    by_cases hy : y = c
    · simp [takeBefore, hy] at h
    · simp only [takeBefore, if_neg hy] at h
      rcases List.mem_cons.mp h with h' | h'
      · simp [h']
      · exact List.mem_cons_of_mem _ (ih h')

theorem takeBefore_append_cons (c : Char) (xs ys : Str) :
    takeBefore c (xs ++ c :: ys) = takeBefore c xs := by
  induction xs with
  | nil => simp [takeBefore]
  | cons a as ih =>
    by_cases ha : a = c
    · simp [takeBefore, ha]
    · simp [takeBefore, ha, ih]

/-- C6: `normalize_email_address` splits on the first `@`, strips the
local part from its first `+` onward, rejoins with the unmodified domain;
an address without `@` is unchanged; it is idempotent; and the `+tag`
variant of a local part normalizes like the plain local part. -/
theorem normalize_email_address_spec :
    (∀ s : Str, '@' ∉ s → normalize_email_address s = s) ∧
    (∀ l d : Str, '@' ∉ l →
      normalize_email_address (l ++ '@' :: d) = takeBefore '+' l ++ '@' :: d) ∧
    (∀ s : Str,
      normalize_email_address (normalize_email_address s) =
        normalize_email_address s) ∧
    (∀ l tg d : Str, '@' ∉ l → '@' ∉ tg →
      normalize_email_address (l ++ '+' :: tg ++ '@' :: d) =
        normalize_email_address (l ++ '@' :: d)) := by
  have hwhole : ∀ l d : Str, '@' ∉ l →
      normalize_email_address (l ++ '@' :: d) = takeBefore '+' l ++ '@' :: d := by
    intro l d hl
    unfold normalize_email_address
    rw [splitFirst_append '@' l d hl]
  refine ⟨?_, hwhole, ?_, ?_⟩
  · intro s hs
    unfold normalize_email_address
    rw [(splitFirst_eq_none_iff '@' s).mpr hs]
  · intro s
    cases h : splitFirst '@' s with
    | none =>
      have h1 : normalize_email_address s = s := by
        unfold normalize_email_address
        rw [h]
      rw [h1, h1]
    | some p =>
      obtain ⟨l, d⟩ := p
      obtain ⟨_, hnl⟩ := splitFirst_eq_some '@' s l d h
      have hnl' : '@' ∉ takeBefore '+' l := fun hm => hnl (mem_takeBefore _ _ _ hm)
      have h1 : normalize_email_address s = takeBefore '+' l ++ '@' :: d := by
        unfold normalize_email_address
        rw [h]
      rw [h1, hwhole _ d hnl', takeBefore_idem]
  · intro l tg d hl htg
    have hltg : '@' ∉ l ++ '+' :: tg := by
      intro hm
      rcases List.mem_append.mp hm with h' | h'
      · exact hl h'
      · rcases List.mem_cons.mp h' with h'' | h''
        · exact absurd h''.symm (by decide)
        · exact htg h''
    have e1 : l ++ '+' :: tg ++ '@' :: d = (l ++ '+' :: tg) ++ '@' :: d := by
      simp
    rw [e1, hwhole _ d hltg, hwhole _ d hl, takeBefore_append_cons]

/-- C6 witness: the properties evaluated at concrete addresses. -/
theorem normalize_email_address_spec_witness :
    normalize_email_address "nodomain".toList = "nodomain".toList ∧
    normalize_email_address ("user".toList ++ '+' :: "tag".toList ++ '@' :: "example.com".toList) =
      normalize_email_address ("user".toList ++ '@' :: "example.com".toList) ∧
    normalize_email_address (normalize_email_address "a+b+c@x.com".toList) =
      normalize_email_address "a+b+c@x.com".toList := by
  refine ⟨?_, ?_, ?_⟩
  · exact normalize_email_address_spec.1 _ (by decide)
  · exact normalize_email_address_spec.2.2.2 _ _ _ (by decide) (by decide)
  · exact normalize_email_address_spec.2.2.1 _

/-! The security gate (router_enrichment.py `check_spam`). -/

/-- One SES mail header, a name/value pair. -/
structure Header where
  name : Str
  value : Str
deriving DecidableEq

/-- The SES receipt `action` block used by `extract_s3_info`. -/
structure S3ActionInfo where
  actionType : Str
  bucketName : Str
  objectKey : Str
deriving DecidableEq

/-- The SES receipt: recipients, verdict statuses, DMARC policy and the
stored-object reference. -/
structure Receipt where
  recipients : List Str
  spamVerdict : Str
  virusVerdict : Str
  dkimVerdict : Str
  spfVerdict : Str
  dmarcVerdict : Str
  dmarcPolicy : Str
  action : Option S3ActionInfo
deriving DecidableEq

/-- An SES message as consumed by the router: `mail.headers` plus the
receipt. -/
structure SesMessage where
  headers : List Header
  receipt : Receipt
deriving DecidableEq

/-- The header scan of `check_spam` (router_enrichment.py:500-510): the
value of the first header whose lowercased name is
`x-integration-test-token`; the Python loop breaks at that first match
whether or not the value is right. -/
def find_bypass_header_value : List Header → Option Str
  | [] => none
  | h :: rest =>
    if pyLower h.name = "x-integration-test-token".toList then some h.value
    else find_bypass_header_value rest

/-- Verdict checks of `check_spam` (router_enrichment.py:512-524):
any of spam/virus/dkim/spf lowercased to `fail`, or dmarc lowercased to
`fail` together with a dmarcPolicy exactly equal to `reject`. -/
def verdicts_fail (r : Receipt) : Bool :=
  decide (pyLower r.spamVerdict = "fail".toList) ||
  decide (pyLower r.virusVerdict = "fail".toList) ||
  decide (pyLower r.dkimVerdict = "fail".toList) ||
  decide (pyLower r.spfVerdict = "fail".toList) ||
  (decide (pyLower r.dmarcVerdict = "fail".toList) &&
   decide (r.dmarcPolicy = "reject".toList))

/-- Embedding of `check_spam` (router_enrichment.py:487-524). The SSM
token load is modelled by the `expected_token` parameter (`none` when the
load failed; Python also treats an empty token as falsy). -/
def check_spam (expected_token : Option Str) (m : SesMessage) : Bool :=
  let bypass :=
    match expected_token with
    | some tok =>
      if tok = [] then false
      else
        match find_bypass_header_value m.headers with
        | some v => decide (v = tok)
        | none => false
    | none => false
  if bypass then false else verdicts_fail m.receipt

/-- A valid bypass: a nonempty configured token whose value equals the
first provided token header, exactly and case-sensitively. -/
def bypass_valid (expected_token : Option Str) (m : SesMessage) : Bool :=
  match expected_token with
  | some tok =>
    !tok.isEmpty && decide (find_bypass_header_value m.headers = some tok)
  | none => false

/-- C1: `check_spam` returns true iff spam, virus, dkim or spf lowercases
to fail, or dmarc lowercases to fail with dmarcPolicy exactly `reject`;
and a valid bypass token forces a false result unconditionally. -/
theorem check_spam_spec (expected_token : Option Str) (m : SesMessage) :
    (bypass_valid expected_token m = true →
      check_spam expected_token m = false) ∧
    (bypass_valid expected_token m = false →
      (check_spam expected_token m = true ↔
        (pyLower m.receipt.spamVerdict = "fail".toList ∨
         pyLower m.receipt.virusVerdict = "fail".toList ∨
         pyLower m.receipt.dkimVerdict = "fail".toList ∨
         pyLower m.receipt.spfVerdict = "fail".toList ∨
         (pyLower m.receipt.dmarcVerdict = "fail".toList ∧
          m.receipt.dmarcPolicy = "reject".toList)))) := by
  have hverd : verdicts_fail m.receipt = true ↔
      (pyLower m.receipt.spamVerdict = "fail".toList ∨
       pyLower m.receipt.virusVerdict = "fail".toList ∨
       pyLower m.receipt.dkimVerdict = "fail".toList ∨
       pyLower m.receipt.spfVerdict = "fail".toList ∨
       (pyLower m.receipt.dmarcVerdict = "fail".toList ∧
        m.receipt.dmarcPolicy = "reject".toList)) := by
    simp [verdicts_fail, Bool.or_eq_true, Bool.and_eq_true, or_assoc]
  constructor
  · intro hb
    cases hexp : expected_token with
    | none => simp [bypass_valid, hexp] at hb
    | some tok =>
      simp only [bypass_valid, hexp, Bool.and_eq_true, decide_eq_true_eq,
        Bool.not_eq_true'] at hb
      obtain ⟨hne, hfound⟩ := hb
      have hne' : ¬ tok = [] := by
        intro h
        rw [h] at hne
        simp [List.isEmpty] at hne
      simp [check_spam, hexp, hne', hfound]
  · intro hb
    rw [← hverd]
    cases hexp : expected_token with
    | none => simp [check_spam, hexp]
    | some tok =>
      by_cases hne : tok = []
      · simp [check_spam, hexp, hne]
      · cases hfound : find_bypass_header_value m.headers with
        | none => simp [check_spam, hexp, hne, hfound]
        | some v =>
          have hv : ¬ v = tok := by
            intro h
            have htokne : tok.isEmpty = false := by
              cases tok with
              | nil => exact absurd rfl hne
              | cons a as => rfl
            have hbt : bypass_valid (some tok) m = true := by
              simp [bypass_valid, hfound, h, htokne]
            rw [hexp, hbt] at hb
            exact Bool.noConfusion hb
          simp [check_spam, hexp, hne, hfound, hv]

/-- C1 witness: a message failing the spam verdict is blocked when no
bypass header is present, and unblocked when the valid token header is
supplied. -/
theorem check_spam_spec_witness :
    (check_spam (some "sekret".toList)
      { headers := [],
        receipt :=
          { recipients := ["a@x.com".toList],
            spamVerdict := "FAIL".toList, virusVerdict := "PASS".toList,
            dkimVerdict := "PASS".toList, spfVerdict := "PASS".toList,
            dmarcVerdict := "PASS".toList, dmarcPolicy := "none".toList,
            action := none } } = true) ∧
    (check_spam (some "sekret".toList)
      { headers := [{ name := "X-Integration-Test-Token".toList,
                      value := "sekret".toList }],
        receipt :=
          { recipients := ["a@x.com".toList],
            spamVerdict := "FAIL".toList, virusVerdict := "PASS".toList,
            dkimVerdict := "PASS".toList, spfVerdict := "PASS".toList,
            dmarcVerdict := "PASS".toList, dmarcPolicy := "none".toList,
            action := none } } = false) := by
  constructor
  · exact ((check_spam_spec (some "sekret".toList) _).2 (by decide)).mpr
      (by decide)
  · exact (check_spam_spec (some "sekret".toList) _).1 (by decide)

/-! The rule store boundary and the routing engine. -/

/-- One entry of a current-format `actions` list as stored in DynamoDB
(`{type, target?}`). -/
structure ActionObj where
  actionType : Str
  target : Option Str
deriving DecidableEq

/-- A routing-rule item as stored in DynamoDB, with every attribute
optional the way `item.get` treats it. The `actions` attribute is the
current list encoding; `action`/`target` are the legacy single encoding. -/
structure DdbItem where
  recipient : Option Str
  action : Option Str
  target : Option Str
  enabled : Option Bool
  description : Option Str
  created_at : Option Str
  updated_at : Option Str
  actions : Option (List ActionObj)
deriving DecidableEq

/-- The in-memory rule shape produced by `lookup_routing_rule`. -/
structure Rule where
  action : Str
  target : Str
  enabled : Bool
deriving DecidableEq

/-- The item decoding of `lookup_routing_rule`
(router_enrichment.py:630-639): only the legacy `action`/`target`
attributes are read, with defaults `bounce`, the empty string and
`enabled = true`; the `actions` list attribute of the item is not
consulted (the decoded `recipient`, `description` and timestamp fields are
not used by any caller and are omitted from `Rule`). -/
def decode_rule (item : DdbItem) : Rule :=
  { action := item.action.getD "bounce".toList,
    target := item.target.getD [],
    enabled := item.enabled.getD true }

/-- Embedding of `lookup_routing_rule` (router_enrichment.py:605-662) over
a pure snapshot `db` of the DynamoDB table keyed by partition key. -/
def lookup_routing_rule (db : Str → Option DdbItem) (route_key : Str) :
    Option Rule :=
  (db route_key).map decode_rule

/-- Key builder: Python `f"ROUTE#{pattern}"`. -/
def routeKey (pattern : Str) : Str := "ROUTE#".toList ++ pattern

/-- Python `email_address.split('@')[1]`: the segment between the first
`@` and the next `@` or the end (only evaluated when the address contains
an `@`). -/
def pyDomain (addr : Str) : Str :=
  match splitFirst '@' addr with
  | some p => takeBefore '@' p.2
  | none => []

/-- Embedding of `generate_lookup_keys` (router_enrichment.py:528-556). -/
def generate_lookup_keys (addr : Str) : List Str :=
  let ks1 := [routeKey addr]
  let normalized := normalize_email_address addr
  let ks2 := if normalized = addr then ks1 else ks1 ++ [routeKey normalized]
  let ks3 :=
    if '@' ∈ addr then ks2 ++ [routeKey ("*@".toList ++ pyDomain addr)]
    else ks2
  ks3 ++ [routeKey "*".toList]

/-- The lookup loop of `get_routing_decision`
(router_enrichment.py:468-485): try each key; a missing rule or a
disabled rule continues to the next key; the first enabled rule returns
its action, target and key; exhaustion returns the store default. -/
def lookup_loop (db : Str → Option DdbItem) :
    List Str → Str × Option Str × Option Str
  | [] => ("store".toList, none, none)
  | k :: rest =>
    match lookup_routing_rule db k with
    | some r =>
      if r.enabled then (r.action, some r.target, some k)
      else lookup_loop db rest
    | none => lookup_loop db rest

/-- Embedding of `get_routing_decision` (router_enrichment.py:448-485). -/
def get_routing_decision (db : Str → Option DdbItem) (recipient : Str) :
    Str × Option Str × Option Str :=
  lookup_loop db (generate_lookup_keys recipient)

/-- The first key of `keys` carrying an enabled rule, with that rule;
disabled and missing rules are skipped. -/
def pick_enabled (db : Str → Option DdbItem) (k : Str) :
    Option (Str × Rule) :=
  match lookup_routing_rule db k with
  | some r => if r.enabled then some (k, r) else none
  | none => none

theorem lookup_loop_eq_findSome (db : Str → Option DdbItem) (ks : List Str) :
    lookup_loop db ks =
      match ks.findSome? (pick_enabled db) with
      | some kr => (kr.2.action, some kr.2.target, some kr.1)
      | none => ("store".toList, none, none) := by
  induction ks with
  | nil => simp [lookup_loop, List.findSome?_nil]
  | cons k rest ih =>
    rw [List.findSome?_cons]
    cases h : lookup_routing_rule db k with
    | none =>
      simp only [lookup_loop, h, pick_enabled]
      exact ih
    | some r =>
      cases hr : r.enabled with
      | false =>
        simp only [lookup_loop, h, hr, pick_enabled]
        simpa using ih
      | true =>
        simp [lookup_loop, h, hr, pick_enabled]

/-- C3: the lookup keys are tried in exactly the order exact address,
normalized address (only when different), domain wildcard (only when the
address contains `@`), global wildcard; and the decision is the rule at
the first key holding an enabled rule, disabled rules being skipped
without blocking later tiers. -/
theorem lookup_order_spec (db : Str → Option DdbItem) (addr : Str) :
    generate_lookup_keys addr =
      [routeKey addr] ++
      (if normalize_email_address addr = addr then []
       else [routeKey (normalize_email_address addr)]) ++
      (if '@' ∈ addr then [routeKey ("*@".toList ++ pyDomain addr)]
       else []) ++
      [routeKey "*".toList] ∧
    get_routing_decision db addr =
      match (generate_lookup_keys addr).findSome? (pick_enabled db) with
      | some kr => (kr.2.action, some kr.2.target, some kr.1)
      | none => ("store".toList, none, none) := by
  constructor
  · by_cases h1 : normalize_email_address addr = addr <;>
      by_cases h2 : '@' ∈ addr <;>
      simp [generate_lookup_keys, h1, h2]
  · exact lookup_loop_eq_findSome db (generate_lookup_keys addr)

/-! The per-message decision loop (`decide_action`) and the best-effort
object tagger. -/

/-- The per-recipient destination dictionary built by `decide_action`:
either `{"target": ..., "reason": ...}` for a bounce, or
`{"target": ..., "destination": ...}` for the other actions. -/
inductive DestInfo where
  | bounceInfo (target : Str) (reason : Str)
  | routeInfo (target : Str) (destination : Option Str)
deriving DecidableEq

/-- The recipient an entry of the decision list is about. -/
def destTarget : DestInfo → Str
  | .bounceInfo t _ => t
  | .routeInfo t _ => t

/-- The body of the recipient loop of `decide_action`
(router_enrichment.py:361-392): a blocked message bounces with reason
`security`; otherwise the routing decision is consulted, a `bounce`
action gets reason `policy`, and anything else carries the looked-up
destination. -/
def route_one (db : Str → Option DdbItem) (blocked : Bool) (t : Str) :
    Str × DestInfo :=
  if blocked then ("bounce".toList, .bounceInfo t "security".toList)
  else
    let r := get_routing_decision db t
    if r.1 = "bounce".toList then (r.1, .bounceInfo t "policy".toList)
    else (r.1, .routeInfo t r.2.1)

/-- Embedding of the decision loop of `decide_action`
(router_enrichment.py:353-392): `check_spam` is evaluated once, then
each recipient appends exactly one `(action, destination)` tuple. -/
def decide_action (expected_token : Option Str)
    (db : Str → Option DdbItem) (m : SesMessage) : List (Str × DestInfo) :=
  let blocked := check_spam expected_token m
  m.receipt.recipients.foldl (fun acc t => acc ++ [route_one db blocked t]) []

/-- Embedding of `extract_s3_info` (router_enrichment.py:70-89): S3 bucket
and key, present only for an `S3` receipt action with truthy (nonempty)
bucket and key. -/
def extract_s3_info (m : SesMessage) : Option (Str × Str) :=
  match m.receipt.action with
  | some a =>
    if a.actionType = "S3".toList ∧ a.bucketName ≠ [] ∧ a.objectKey ≠ []
    then some (a.bucketName, a.objectKey)
    else none
  | none => none

/-- Observable outcome of the `s3.put_object_tagging` call. -/
inductive S3TagOutcome where
  | ok
  | noSuchKey
  | otherError
deriving DecidableEq

/-- How a tag operation ended from the caller's point of view. -/
inductive TagStatus where
  | tagged
  | skipped
deriving DecidableEq

/-- Embedding of `tag_s3_object` (router_enrichment.py:130-180): a
`NoSuchKey` error from S3 is swallowed and treated as a skipped success;
any other S3 error is re-raised. -/
def tag_s3_object : S3TagOutcome → Except Unit TagStatus
  | .ok => .ok .tagged
  | .noSuchKey => .ok .skipped
  | .otherError => .error ()

/-- The tail of `decide_action` (router_enrichment.py:394-445): the
decision list is computed first; tagging runs only when S3 info is
present, inside a try/except whose handler only publishes a failure
metric. Returns the decision list and the number of failure metrics
published. -/
def decide_action_full (expected_token : Option Str)
    (db : Str → Option DdbItem) (m : SesMessage)
    (tagOutcome : S3TagOutcome) : List (Str × DestInfo) × Nat :=
  let results := decide_action expected_token db m
  let failures :=
    match extract_s3_info m with
    | some _ =>
      match tag_s3_object tagOutcome with
      | .ok _ => 0
      | .error _ => 1
    | none => 0
  (results, failures)

theorem foldl_append_singleton {α β : Type} (f : α → β) (l : List α)
    (init : List β) :
    l.foldl (fun acc t => acc ++ [f t]) init = init ++ l.map f := by
  induction l generalizing init with
  | nil => simp
  | cons x xs ih => simp [ih]

theorem decide_action_eq_map (expected_token : Option Str)
    (db : Str → Option DdbItem) (m : SesMessage) :
    decide_action expected_token db m =
      m.receipt.recipients.map
        (route_one db (check_spam expected_token m)) := by
  unfold decide_action
  rw [foldl_append_singleton]
  rfl

theorem destTarget_route_one (db : Str → Option DdbItem) (blocked : Bool)
    (t : Str) : destTarget (route_one db blocked t).2 = t := by
  unfold route_one
  cases blocked with
  | true => rfl
  | false =>
    rw [if_neg Bool.false_ne_true]
    by_cases hr : (get_routing_decision db t).1 = "bounce".toList
    · rw [if_pos hr]
      rfl
    · rw [if_neg hr]
      rfl

/-- C2: on a blocked message every recipient resolves to the single
action `bounce` with reason `security`, and the decision list does not
depend on the rule store at all (no rule lookup can influence it). -/
theorem blocked_forces_bounce (expected_token : Option Str)
    (m : SesMessage) (db1 db2 : Str → Option DdbItem)
    (h : check_spam expected_token m = true) :
    decide_action expected_token db1 m =
      m.receipt.recipients.map
        (fun t => ("bounce".toList, DestInfo.bounceInfo t "security".toList)) ∧
    decide_action expected_token db1 m = decide_action expected_token db2 m := by
  have hmap : ∀ db : Str → Option DdbItem,
      decide_action expected_token db m =
        m.receipt.recipients.map
          (fun t => ("bounce".toList, DestInfo.bounceInfo t "security".toList)) := by
    intro db
    rw [decide_action_eq_map, h]
    apply List.map_congr_left
    intro t _
    simp [route_one]
  exact ⟨hmap db1, (hmap db1).trans (hmap db2).symm⟩

/-- C2 witness: a spam-failing two-recipient message bounces both
recipients with reason security, under a rule store holding an enabled
forward rule for the first recipient. -/
theorem blocked_forces_bounce_witness :
    decide_action none
      (fun k =>
        if k = routeKey "a@x.com".toList then
          some { recipient := some "a@x.com".toList,
                 action := some "forward-to-gmail".toList,
                 target := some "g@gmail.com".toList,
                 enabled := some true, description := none,
                 created_at := none, updated_at := none, actions := none }
        else none)
      { headers := [],
        receipt :=
          { recipients := ["a@x.com".toList, "b@x.com".toList],
            spamVerdict := "fail".toList, virusVerdict := "PASS".toList,
            dkimVerdict := "PASS".toList, spfVerdict := "PASS".toList,
            dmarcVerdict := "PASS".toList, dmarcPolicy := "none".toList,
            action := none } } =
      [("bounce".toList, DestInfo.bounceInfo "a@x.com".toList "security".toList),
       ("bounce".toList, DestInfo.bounceInfo "b@x.com".toList "security".toList)] := by
  have h := (blocked_forces_bounce none
    { headers := [],
      receipt :=
        { recipients := ["a@x.com".toList, "b@x.com".toList],
          spamVerdict := "fail".toList, virusVerdict := "PASS".toList,
          dkimVerdict := "PASS".toList, spfVerdict := "PASS".toList,
          dmarcVerdict := "PASS".toList, dmarcPolicy := "none".toList,
          action := none } }
    (fun k =>
      if k = routeKey "a@x.com".toList then
        some { recipient := some "a@x.com".toList,
               action := some "forward-to-gmail".toList,
               target := some "g@gmail.com".toList,
               enabled := some true, description := none,
               created_at := none, updated_at := none, actions := none }
      else none)
    (fun _ => none) (by decide)).1
  rw [h]
  rfl

/-- C4: when no enabled rule exists at any lookup tier the decision is
the single default `store` action with no target; and every recipient of
every message contributes at least one entry to the decision list, so no
recipient ever resolves to an empty action list. -/
theorem resolve_default_and_never_empty :
    (∀ (db : Str → Option DdbItem) (addr : Str),
      (∀ k ∈ generate_lookup_keys addr,
        ∀ r, lookup_routing_rule db k = some r → r.enabled = false) →
      get_routing_decision db addr = ("store".toList, none, none)) ∧
    (∀ (expected_token : Option Str) (db : Str → Option DdbItem)
      (m : SesMessage) (t : Str), t ∈ m.receipt.recipients →
      ∃ p, p ∈ decide_action expected_token db m ∧ destTarget p.2 = t) := by
  constructor
  · intro db addr h
    unfold get_routing_decision
    have hloop : ∀ ks : List Str,
        (∀ k ∈ ks, ∀ r, lookup_routing_rule db k = some r →
          r.enabled = false) →
        lookup_loop db ks = ("store".toList, none, none) := by
      intro ks
      induction ks with
      | nil => intro _; rfl
      | cons k rest ih =>
        intro hks
        have hk := hks k (List.mem_cons_self k rest)
        cases hr : lookup_routing_rule db k with
        | none => simp [lookup_loop, hr, ih (fun k' hk' => hks k' (List.mem_cons_of_mem _ hk'))]
        | some r =>
          have : r.enabled = false := hk r hr
          simp [lookup_loop, hr, this,
            ih (fun k' hk' => hks k' (List.mem_cons_of_mem _ hk'))]
    exact hloop _ h
  · intro expected_token db m t ht
    refine ⟨route_one db (check_spam expected_token m) t, ?_, ?_⟩
    · rw [decide_action_eq_map]
      exact List.mem_map_of_mem _ ht
    · exact destTarget_route_one db _ t

/-- C4 witness: with an empty rule store, the recipient `z@x.com`
resolves to the default store decision, and contributes an entry to the
decision list of a clean one-recipient message. -/
theorem resolve_default_and_never_empty_witness :
    get_routing_decision (fun _ => none) "z@x.com".toList =
      ("store".toList, none, none) ∧
    (∃ p, p ∈ decide_action none (fun _ => none)
        { headers := [],
          receipt :=
            { recipients := ["z@x.com".toList],
              spamVerdict := "PASS".toList, virusVerdict := "PASS".toList,
              dkimVerdict := "PASS".toList, spfVerdict := "PASS".toList,
              dmarcVerdict := "PASS".toList, dmarcPolicy := "none".toList,
              action := none } } ∧
      destTarget p.2 = "z@x.com".toList) := by
  constructor
  · exact resolve_default_and_never_empty.1 (fun _ => none) "z@x.com".toList
      (by intro k _ r hr; exact absurd hr (by simp [lookup_routing_rule]))
  · exact resolve_default_and_never_empty.2 none (fun _ => none) _
      "z@x.com".toList (by simp)

/-- C10: the decision list of `decide_action` has exactly one
`(action, destination)` tuple per recipient, in recipient order: its
length equals the number of recipients, the i-th entry is the routing of
the i-th recipient, and its destination names that recipient. -/
theorem decide_action_one_tuple_per_recipient
    (expected_token : Option Str) (db : Str → Option DdbItem)
    (m : SesMessage) :
    (decide_action expected_token db m).length =
      m.receipt.recipients.length ∧
    ∀ i (h1 : i < (decide_action expected_token db m).length)
      (h2 : i < m.receipt.recipients.length),
      (decide_action expected_token db m).get ⟨i, h1⟩ =
        route_one db (check_spam expected_token m)
          (m.receipt.recipients.get ⟨i, h2⟩) ∧
      destTarget ((decide_action expected_token db m).get ⟨i, h1⟩).2 =
        m.receipt.recipients.get ⟨i, h2⟩ := by
  have hmap := decide_action_eq_map expected_token db m
  constructor
  · rw [hmap]
    exact List.length_map _ _
  · intro i h1 h2
    have hq : (decide_action expected_token db m)[i]? =
        some (route_one db (check_spam expected_token m)
          (m.receipt.recipients.get ⟨i, h2⟩)) := by
      rw [hmap, List.getElem?_map, List.getElem?_eq_getElem h2]
      simp [List.get_eq_getElem]
    have h1g : (decide_action expected_token db m)[i]? =
        some ((decide_action expected_token db m).get ⟨i, h1⟩) := by
      rw [List.get_eq_getElem]
      exact List.getElem?_eq_getElem h1
    have hget : (decide_action expected_token db m).get ⟨i, h1⟩ =
        route_one db (check_spam expected_token m)
          (m.receipt.recipients.get ⟨i, h2⟩) :=
      Option.some.inj (h1g.symm.trans hq)
    exact ⟨hget, by rw [hget]; exact destTarget_route_one db _ _⟩

/-- C10 witness: a two-recipient message under an empty rule store yields
a two-entry decision list whose first entry routes and names the first
recipient. -/
theorem decide_action_one_tuple_per_recipient_witness :
    (decide_action none (fun _ => none)
      { headers := [],
        receipt :=
          { recipients := ["a@x.com".toList, "b@y.com".toList],
            spamVerdict := "PASS".toList, virusVerdict := "PASS".toList,
            dkimVerdict := "PASS".toList, spfVerdict := "PASS".toList,
            dmarcVerdict := "PASS".toList, dmarcPolicy := "none".toList,
            action := none } }).length = 2 ∧
    destTarget ((decide_action none (fun _ => none)
      { headers := [],
        receipt :=
          { recipients := ["a@x.com".toList, "b@y.com".toList],
            spamVerdict := "PASS".toList, virusVerdict := "PASS".toList,
            dkimVerdict := "PASS".toList, spfVerdict := "PASS".toList,
            dmarcVerdict := "PASS".toList, dmarcPolicy := "none".toList,
            action := none } }).get ⟨0, by decide⟩).2 = "a@x.com".toList := by
  constructor
  · exact (decide_action_one_tuple_per_recipient none (fun _ => none) _).1
  · exact ((decide_action_one_tuple_per_recipient none (fun _ => none) _).2
      0 (by decide) (by decide)).2

/-- C9: a tag operation against a deleted object completes as a skipped
success, not an error; the decision list of `decide_action` is identical
whatever the tagging outcome; and exactly one failure metric is counted
when tagging is attempted and fails for any other reason. -/
theorem tagging_is_best_effort (expected_token : Option Str)
    (db : Str → Option DdbItem) (m : SesMessage)
    (o1 o2 : S3TagOutcome) :
    tag_s3_object S3TagOutcome.noSuchKey = Except.ok TagStatus.skipped ∧
    (decide_action_full expected_token db m o1).1 =
      (decide_action_full expected_token db m o2).1 ∧
    (decide_action_full expected_token db m o1).2 =
      (if (extract_s3_info m).isSome ∧ o1 = S3TagOutcome.otherError
       then 1 else 0) := by
  refine ⟨rfl, rfl, ?_⟩
  unfold decide_action_full
  cases hs : extract_s3_info m with
  | none => simp [hs]
  | some bk =>
    cases o1 <;> simp [hs, tag_s3_object]

/-- The current-format rule item of the repository's own unit test
`test_parses_multi_action_array`: an enabled rule whose `actions` list is
`[forward-to-gmail → me@gmail.com, store]` and which carries no legacy
`action`/`target` attributes. -/
def multi_action_item : DdbItem :=
  { recipient := some "test@example.com".toList,
    action := none,
    target := none,
    enabled := some true,
    description := some "Test rule".toList,
    created_at := none,
    updated_at := none,
    actions := some
      [{ actionType := "forward-to-gmail".toList,
         target := some "me@gmail.com".toList },
       { actionType := "store".toList, target := none }] }

/-- C5: evaluation of the code at the failing input. The rule-store
boundary decodes a current-format `actions: [...]` item to the single
default action `bounce` with an empty target, ignoring its two-element
actions list entirely, and the routing decision built from it is a
one-action bounce — not the verbatim two-action list
`[forward-to-gmail → me@gmail.com, store]` that the spec and the
repository's own unit tests require. -/
theorem lookup_ignores_actions_list :
    decode_rule multi_action_item =
      { action := "bounce".toList, target := [], enabled := true } ∧
    multi_action_item.actions = some
      [{ actionType := "forward-to-gmail".toList,
         target := some "me@gmail.com".toList },
       { actionType := "store".toList, target := none }] ∧
    get_routing_decision
        (fun k => if k = routeKey "test@example.com".toList
                  then some multi_action_item else none)
        "test@example.com".toList =
      ("bounce".toList, some [], some (routeKey "test@example.com".toList)) := by
  refine ⟨rfl, rfl, ?_⟩
  decide

/-! The credential-expiration classifier and retry path
(gmail_forwarder.py). -/

/-- The exception shapes `is_token_expired_error` distinguishes: a Google
Auth `RefreshError`, a `googleapiclient` `HttpError` carrying
`resp.status`, or any other exception. -/
inductive ExcKind where
  | refreshError
  | httpError (status : Nat)
  | otherError
deriving DecidableEq

/-- A Python exception as observed by the classifier: its class shape and
its `str(e)` rendering. -/
structure PyException where
  kind : ExcKind
  message : Str
deriving DecidableEq

/-- The keyword list of `is_token_expired_error`
(gmail_forwarder.py:295-303). -/
def expiration_keywords : List Str :=
  ["invalid_grant".toList,
   "token has been expired".toList,
   "token expired".toList,
   "invalid credentials".toList,
   "credentials have expired".toList,
   "unauthorized".toList,
   "authentication failed".toList]

/-- Embedding of `is_token_expired_error` (gmail_forwarder.py:262-313):
a RefreshError classifies immediately; an HttpError with status 401 or
403 classifies; otherwise the lowercased message is scanned for the
expiration keywords. -/
def is_token_expired_error (e : PyException) : Bool :=
  match e.kind with
  | .refreshError => true
  | .httpError status =>
    if status = 401 ∨ status = 403 then true
    else expiration_keywords.any (fun kw => hasSub kw (pyLower e.message))
  | .otherError =>
    expiration_keywords.any (fun kw => hasSub kw (pyLower e.message))

/-- C7: the classifier reports a credential expiry iff the error is a
refresh failure, carries HTTP status 401 or 403, or its lowercased
message contains one of the documented keywords; every other error is
classified as ordinary. -/
theorem classify_spec (e : PyException) :
    is_token_expired_error e = true ↔
      (e.kind = ExcKind.refreshError ∨
       (∃ status, e.kind = ExcKind.httpError status ∧
         (status = 401 ∨ status = 403)) ∨
       (∃ kw ∈ expiration_keywords, hasSub kw (pyLower e.message) = true)) := by
  cases hk : e.kind with
  | refreshError => simp [is_token_expired_error, hk]
  | httpError status =>
    by_cases hs : status = 401 ∨ status = 403
    · simp [is_token_expired_error, hk, hs]
    · simp only [is_token_expired_error, hk, if_neg hs, List.any_eq_true]
      constructor
      · intro ⟨kw, hmem, hsub⟩
        exact Or.inr (Or.inr ⟨kw, hmem, hsub⟩)
      · intro h
        rcases h with h | ⟨s, hse, hs'⟩ | ⟨kw, hmem, hsub⟩
        · exact absurd h (by simp)
        · rw [ExcKind.httpError.injEq] at hse
          exact absurd (hse ▸ hs') hs
        · exact ⟨kw, hmem, hsub⟩
  | otherError =>
    simp only [is_token_expired_error, hk, List.any_eq_true]
    constructor
    · intro ⟨kw, hmem, hsub⟩
      exact Or.inr (Or.inr ⟨kw, hmem, hsub⟩)
    · intro h
      rcases h with h | ⟨s, hse, _⟩ | ⟨kw, hmem, hsub⟩
      · exact absurd h (by simp)
      · exact absurd hse (by simp)
      · exact ⟨kw, hmem, hsub⟩

/-- An SQS record as seen by the forwarder: the raw body, the receipt
handle, and the `attempt_count` message attribute a previously re-queued
record would carry (the code never reads it). -/
structure SqsRecord where
  body : Str
  receiptHandle : Str
  attempt_count_attr : Option Nat
deriving DecidableEq

/-- The `error_context` dictionary built by `process_sqs_record`
(gmail_forwarder.py:598-603): timestamp `now`, error type
`token_expired`, and a hard-coded attempt count of 1. -/
structure ErrorContext where
  timestamp : Str
  error_type : Str
  request_id : Str
  attempt_count : Nat
deriving DecidableEq

/-- Builder faithful to gmail_forwarder.py:598-603. -/
def mk_error_context (now : Str) : ErrorContext :=
  { timestamp := now,
    error_type := "token_expired".toList,
    request_id := "unknown".toList,
    attempt_count := 1 }

/-- The message `queue_for_retry` sends (gmail_forwarder.py:341-369):
the original record body verbatim, plus the attributes taken from the
error context. -/
structure RetryMessage where
  message_body : Str
  original_timestamp : Str
  error_type : Str
  attempt_count : Nat
deriving DecidableEq

/-- Embedding of the message construction of `queue_for_retry`
(gmail_forwarder.py:316-384). -/
def queue_for_retry_message (record : SqsRecord) (ctx : ErrorContext) :
    RetryMessage :=
  { message_body := record.body,
    original_timestamp := ctx.timestamp,
    error_type := ctx.error_type,
    attempt_count := ctx.attempt_count }

/-- Terminal status `process_sqs_record` reports for one record. -/
inductive ProcessStatus where
  | ok
  | error
deriving DecidableEq

/-- The observable result of `process_sqs_record`'s exception handler:
the reported status, the `action` field of an ok result, and the message
sent to the retry queue, when one was sent. -/
structure ProcessResult where
  status : ProcessStatus
  action : Option Str
deriving DecidableEq

/-- Embedding of the exception handler of `process_sqs_record`
(gmail_forwarder.py:589-638): a token-expiration error attempts the
retry enqueue — success reports status ok with action
`queued_for_retry` (not a batch failure), enqueue failure reports status
error (a batch failure); a non-token error reports status error.
`enqueue_ok` is the observable outcome of the SQS send. -/
def process_sqs_record_catch (e : PyException) (record : SqsRecord)
    (now : Str) (enqueue_ok : Bool) :
    ProcessResult × Option RetryMessage :=
  if is_token_expired_error e then
    if enqueue_ok then
      ({ status := .ok, action := some "queued_for_retry".toList },
       some (queue_for_retry_message record (mk_error_context now)))
    else
      ({ status := .error, action := none }, none)
  else
    ({ status := .error, action := none }, none)

/-- The record of the C8 counterexample: its `attempt_count` message
attribute says a previous attempt already queued it with count 3. -/
def cex_record : SqsRecord :=
  { body := "original-body".toList,
    receiptHandle := "rh-1".toList,
    attempt_count_attr := some 3 }

/-- The delivery error of the C8 counterexample and of scenario E: an
ordinary exception whose message contains `invalid_grant`. -/
def cex_exception : PyException :=
  { kind := .otherError,
    message := "invalid_grant: Token has been expired or revoked.".toList }

/-- C8 counterexample: on a record whose previous attempt count is 3, a
successful retry enqueue sends attempt count 1, not 3 + 1 — the code
hard-codes 1 and never increments the previous count. -/
theorem retry_attempt_count_not_incremented :
    (process_sqs_record_catch cex_exception cex_record "now".toList true).2 =
      some { message_body := "original-body".toList,
             original_timestamp := "now".toList,
             error_type := "token_expired".toList,
             attempt_count := 1 } ∧
    cex_record.attempt_count_attr = some 3 ∧
    ¬ ((1 : Nat) = 3 + 1) := by
  refine ⟨?_, rfl, by decide⟩
  decide

/-- C8 (amended): on a credential-expiration error the retry envelope
holds the byte-for-byte original body with timestamp now, error class
`token_expired` and attempt count 1; a successful enqueue is reported as
the ok outcome `queued_for_retry`, a failed enqueue as the error
(batch-failure) outcome with nothing sent. -/
theorem credential_expired_queues_verbatim (e : PyException)
    (record : SqsRecord) (now : Str)
    (h : is_token_expired_error e = true) :
    process_sqs_record_catch e record now true =
      ({ status := .ok, action := some "queued_for_retry".toList },
       some { message_body := record.body,
              original_timestamp := now,
              error_type := "token_expired".toList,
              attempt_count := 1 }) ∧
    process_sqs_record_catch e record now false =
      ({ status := .error, action := none }, none) := by
  unfold process_sqs_record_catch
  rw [h]
  exact ⟨rfl, rfl⟩

/-- C8 witness: scenario E — an error whose message contains
`invalid_grant` with a successful enqueue yields the ok
`queued_for_retry` outcome carrying the unmodified body. -/
theorem credential_expired_queues_verbatim_witness :
    process_sqs_record_catch cex_exception
        { body := "payload".toList, receiptHandle := "rh-2".toList,
          attempt_count_attr := none } "t0".toList true =
      ({ status := .ok, action := some "queued_for_retry".toList },
       some { message_body := "payload".toList,
              original_timestamp := "t0".toList,
              error_type := "token_expired".toList,
              attempt_count := 1 }) ∧
    process_sqs_record_catch cex_exception
        { body := "payload".toList, receiptHandle := "rh-2".toList,
          attempt_count_attr := none } "t0".toList false =
      ({ status := .error, action := none }, none) :=
  credential_expired_queues_verbatim cex_exception
    { body := "payload".toList, receiptHandle := "rh-2".toList,
      attempt_count_attr := none } "t0".toList (by decide)
